import Mathlib

/-!
Verification of the nxplay playback-control core (`src/nxplay/pipeline.hpp`).

The repository ships only the abstract `pipeline` interface: every method is
either pure virtual or merely declared, and the implementing translation unit
(`main_pipeline`) as well as `media.hpp` are not part of the sources.  The
definitions below therefore embed the documented contract: each is modelled
from the specification (and from the doc comments in `pipeline.hpp`, which
state the same contract), as indicated in its doc comment.  Asynchronous
engine behaviour is represented by explicit notification events
(`transition_finished`, `end_of_stream`) and by the list of commands each
operation sends to the engine adapter.
-/

namespace nxplay

/-- The pipeline state enum from `pipeline.hpp` (`states`): `idle`, the four
transitional states `starting`, `stopping`, `seeking`, `buffering`, and the
resting states `playing` and `paused`. -/
inductive states where
  | state_idle
  | state_starting
  | state_stopping
  | state_seeking
  | state_buffering
  | state_playing
  | state_paused
deriving DecidableEq, Repr

/-- The two positioning units from `pipeline.hpp` (`position_units`). -/
inductive position_units where
  | position_unit_nanoseconds
  | position_unit_bytes
deriving DecidableEq, Repr

/-- Modelled from the spec: `is_transitioning` is true exactly for
`starting`, `stopping`, `seeking` and `buffering` (the `media.hpp` and
implementation sources are absent; the states enum documentation in
`pipeline.hpp` marks exactly these four states as transitional). -/
def is_transitional : states → Bool
  | states.state_starting => true
  | states.state_stopping => true
  | states.state_seeking => true
  | states.state_buffering => true
  | _ => false

/-- Modelled from the spec: a media object is a URI plus an optional
in-memory payload (`media.hpp` is absent from the sources). -/
structure media where
  uri : String
  payload : List Nat
deriving DecidableEq, Repr

/-- Modelled from the spec: a media handle is structurally valid when its
identifier (URI) is non-empty. -/
def media.is_valid (m : media) : Bool := m.uri ≠ ""

/-- A scheduler slot: a token paired with the media it schedules. -/
structure slot where
  token : Nat
  med : media
deriving DecidableEq, Repr

/-- Modelled from the spec: the postponed-action queue holds at most one
pending intent per kind (play / stop / pause-toggle / seek / mute / volume);
arming a kind overwrites the previously armed action of that kind. -/
structure postponed_queue where
  play : Option (Nat × media × Bool)
  stop : Bool
  pause : Option Bool
  seek : Option (Int × position_units)
  mute : Option Bool
  volume : Option ℚ
deriving DecidableEq, Repr

/-- The empty postponed-action queue. -/
def postponed_queue.empty : postponed_queue :=
  { play := none, stop := false, pause := none, seek := none
    mute := none, volume := none }

/-- Commands the core issues outward to the engine adapter (spec §6). -/
inductive engine_cmd where
  | build_and_start : media → engine_cmd
  | teardown : engine_cmd
  | seek_to : Int → position_units → engine_cmd
  | set_pause : Bool → engine_cmd
  | set_volume_out : ℚ → engine_cmd
  | set_muted_out : Bool → engine_cmd
deriving DecidableEq, Repr

/-- Modelled from the spec: the whole mutable core — current state, resume
target of the active transition, the `current`/`next` scheduler slot pair,
the postponed-action queue, and the capabilities/values last reported by the
engine (position and duration per unit, `none` when not determinable;
seekability; volume and mute support, `none` when unsupported). -/
structure pipeline where
  cur_state : states
  resume : states
  current : Option slot
  next : Option slot
  postponed : postponed_queue
  seekable : Bool
  pos_ns : Option Int
  pos_bytes : Option Int
  dur_ns : Option Int
  dur_bytes : Option Int
  volume_support : Option ℚ
  mute_support : Option Bool
deriving DecidableEq, Repr

/-- Does the token of the occupied current slot equal the given token? -/
def slot_token_matches (c : Option slot) (tok : Nat) : Bool :=
  match c with
  | none => false
  | some s => s.token = tok

/-- Modelled from the spec (§4.2, and the `play_media` doc comment in
`pipeline.hpp`): the media-scheduler token-resolution algorithm.  If
`play_now` is true, or no current slot is occupied, or the token equals the
current slot's token, the new pair becomes `current` (displacing the old
current, discarding any `next`) and the engine is told to build and start;
otherwise the new pair becomes `next`, wholesale replacing any previously
scheduled next media. -/
def schedule (p : pipeline) (tok : Nat) (m : media) (play_now : Bool) :
    pipeline × List engine_cmd :=
  if play_now = true ∨ p.current = none ∨ slot_token_matches p.current tok = true then
    ({ p with current := some ⟨tok, m⟩, next := none
              cur_state := states.state_starting, resume := states.state_playing },
     [engine_cmd.build_and_start m])
  else
    ({ p with next := some ⟨tok, m⟩ }, [])

/-- Modelled from the spec: the single protected `play_media_impl` hook that
both public `play_media` overloads delegate to.  Rejects structurally invalid
media (returns `false`); postpones the request (returning `true`) when the
pipeline is transitional; otherwise routes to the scheduler and returns
`true`. -/
def play_media_impl (p : pipeline) (tok : Nat) (m : media) (play_now : Bool) :
    Bool × pipeline × List engine_cmd :=
  if m.is_valid = false then (false, p, [])
  else if is_transitional p.cur_state = true then
    (true, { p with postponed := { p.postponed with play := some (tok, m, play_now) } }, [])
  else
    let r := schedule p tok m play_now
    (true, r.1, r.2)

/-- Modelled from the spec: the public `play_media` overload taking the media
by const reference (copying it internally); it delegates to
`play_media_impl`. -/
def play_media (p : pipeline) (tok : Nat) (m : media) (play_now : Bool) :
    Bool × pipeline × List engine_cmd :=
  play_media_impl p tok m play_now

/-- Modelled from the spec: the public `play_media` overload taking the media
by rvalue reference (moving it internally); it also delegates to
`play_media_impl`, the move affecting only how the C++ object's payload is
transferred, not the resulting value. -/
def play_media_move (p : pipeline) (tok : Nat) (m : media) (play_now : Bool) :
    Bool × pipeline × List engine_cmd :=
  play_media_impl p tok m play_now

/-- Modelled from the spec (§4.4 and the `stop` doc comment in
`pipeline.hpp`): `stop` is a no-op in the idle state.  In a transitional
state it discards the scheduler slots and replaces the whole postponed queue
by a lone armed stop, to be flushed when the transition finishes.  Otherwise
it immediately clears both slots, empties the queue and transitions to
`stopping` (resuming to idle), telling the engine to tear down. -/
def stop (p : pipeline) : pipeline × List engine_cmd :=
  if p.cur_state = states.state_idle then (p, [])
  else if is_transitional p.cur_state = true then
    ({ p with current := none, next := none
              postponed := { postponed_queue.empty with stop := true } }, [])
  else
    ({ p with cur_state := states.state_stopping, resume := states.state_idle
              current := none, next := none, postponed := postponed_queue.empty },
     [engine_cmd.teardown])

/-- Modelled from the spec: `set_paused` is meaningful only when the
pipeline is playing, paused, or transitioning towards one of those two
states.  In the transitional case the toggle is postponed; when already in
the requested state the call is ignored; otherwise the state toggles
directly and the engine is told to (un)pause. -/
def set_paused (p : pipeline) (b : Bool) : pipeline × List engine_cmd :=
  if is_transitional p.cur_state = true then
    if p.resume = states.state_playing ∨ p.resume = states.state_paused then
      ({ p with postponed := { p.postponed with pause := some b } }, [])
    else (p, [])
  else if p.cur_state = states.state_playing ∧ b = true then
    ({ p with cur_state := states.state_paused }, [engine_cmd.set_pause true])
  else if p.cur_state = states.state_paused ∧ b = false then
    ({ p with cur_state := states.state_playing }, [engine_cmd.set_pause false])
  else (p, [])

/-- Modelled from the spec: `set_current_position` (seeking) is ignored
unless the pipeline is playing, paused, or transitioning to one of those
two states.  In the transitional case the seek is postponed, a later seek
overwriting an earlier unflushed one.  Otherwise, when the media is
seekable, the pipeline enters `seeking` (resuming to the previous state) and
the engine is commanded to seek; non-seekable media ignores the call. -/
def set_current_position (p : pipeline) (pos : Int) (u : position_units) :
    pipeline × List engine_cmd :=
  if is_transitional p.cur_state = true then
    if p.resume = states.state_playing ∨ p.resume = states.state_paused then
      ({ p with postponed := { p.postponed with seek := some (pos, u) } }, [])
    else (p, [])
  else if p.cur_state = states.state_playing ∨ p.cur_state = states.state_paused then
    if p.seekable = true then
      ({ p with cur_state := states.state_seeking, resume := p.cur_state },
       [engine_cmd.seek_to pos u])
    else (p, [])
  else (p, [])

/-- The engine-reported playback position for a unit, `none` when it cannot
be determined in that unit. -/
def position_of (p : pipeline) (u : position_units) : Option Int :=
  match u with
  | position_units.position_unit_nanoseconds => p.pos_ns
  | position_units.position_unit_bytes => p.pos_bytes

/-- The engine-reported duration for a unit, `none` when it cannot be
determined in that unit. -/
def duration_of (p : pipeline) (u : position_units) : Option Int :=
  match u with
  | position_units.position_unit_nanoseconds => p.dur_ns
  | position_units.position_unit_bytes => p.dur_bytes

/-- Modelled from the spec: `get_current_position` returns the engine's
reported position for the requested unit, and the sentinel `-1` when no
media is current or the position cannot be determined in that unit. -/
def get_current_position (p : pipeline) (u : position_units) : Int :=
  match p.current, position_of p u with
  | none, _ => -1
  | some _, none => -1
  | some _, some v => v

/-- Modelled from the spec: `get_duration` returns the engine's reported
duration for the requested unit, and the sentinel `-1` when no media is
current or the duration cannot be determined in that unit. -/
def get_duration (p : pipeline) (u : position_units) : Int :=
  match p.current, duration_of p u with
  | none, _ => -1
  | some _, none => -1
  | some _, some v => v

/-- Modelled from the spec: `set_volume` is a pass-through to the volume
collaborator and is ignored when nothing in the pipeline supports volume. -/
def set_volume (p : pipeline) (v : ℚ) : pipeline × List engine_cmd :=
  match p.volume_support with
  | none => (p, [])
  | some _ => ({ p with volume_support := some v }, [engine_cmd.set_volume_out v])

/-- Modelled from the spec: `get_volume` returns the current volume, and the
default `1.0` when volume is unsupported by the pipeline. -/
def get_volume (p : pipeline) : ℚ :=
  match p.volume_support with
  | none => 1
  | some v => v

/-- Modelled from the spec: `set_muted` is a pass-through to the volume
collaborator and is ignored when nothing in the pipeline supports muting. -/
def set_muted (p : pipeline) (b : Bool) : pipeline × List engine_cmd :=
  match p.mute_support with
  | none => (p, [])
  | some _ => ({ p with mute_support := some b }, [engine_cmd.set_muted_out b])

/-- Modelled from the spec: `is_muted` returns the current mute flag, and
the default `false` when muting is unsupported by the pipeline. -/
def is_muted (p : pipeline) : Bool :=
  match p.mute_support with
  | none => false
  | some b => b

/-- Flush step for a postponed play: re-run the scheduler algorithm on the
slot contents found at flush time. -/
def run_play (p : pipeline) : pipeline × List engine_cmd :=
  match p.postponed.play with
  | none => (p, [])
  | some a =>
      schedule { p with postponed := { p.postponed with play := none } } a.1 a.2.1 a.2.2

/-- Flush step for a postponed pause toggle. -/
def run_pause (p : pipeline) : pipeline × List engine_cmd :=
  match p.postponed.pause with
  | none => (p, [])
  | some b =>
      set_paused { p with postponed := { p.postponed with pause := none } } b

/-- Flush step for a postponed seek. -/
def run_seek (p : pipeline) : pipeline × List engine_cmd :=
  match p.postponed.seek with
  | none => (p, [])
  | some s =>
      set_current_position { p with postponed := { p.postponed with seek := none } } s.1 s.2

/-- Flush step for a postponed mute toggle. -/
def run_mute (p : pipeline) : pipeline × List engine_cmd :=
  match p.postponed.mute with
  | none => (p, [])
  | some b =>
      set_muted { p with postponed := { p.postponed with mute := none } } b

/-- Flush step for a postponed volume change. -/
def run_volume (p : pipeline) : pipeline × List engine_cmd :=
  match p.postponed.volume with
  | none => (p, [])
  | some v =>
      set_volume { p with postponed := { p.postponed with volume := none } } v

/-- Modelled from the spec (§4.3): flushing the postponed-action queue at a
transitional-state exit.  An armed stop preempts and clears everything else
(a no-op when the pipeline resumed to idle, otherwise clearing both slots
and entering `stopping`); otherwise the armed actions execute in the fixed
order play, pause-toggle, seek, mute, volume, and the flushed entries are
removed from the queue. -/
def flush (p : pipeline) : pipeline × List engine_cmd :=
  if p.postponed.stop = true then
    if p.cur_state = states.state_idle then
      ({ p with postponed := postponed_queue.empty }, [])
    else
      ({ p with cur_state := states.state_stopping, resume := states.state_idle
                current := none, next := none, postponed := postponed_queue.empty },
       [engine_cmd.teardown])
  else
    let r1 := run_play p
    let r2 := run_pause r1.1
    let r3 := run_seek r2.1
    let r4 := run_mute r3.1
    let r5 := run_volume r4.1
    (r5.1, r1.2 ++ r2.2 ++ r3.2 ++ r4.2 ++ r5.2)

/-- Modelled from the spec: the engine adapter's transition-finished
notification.  A transitional state moves to its resume target and the
postponed-action queue is flushed; the notification is ignored in a
non-transitional state. -/
def transition_finished (p : pipeline) : pipeline × List engine_cmd :=
  if is_transitional p.cur_state = true then
    flush { p with cur_state := p.resume }
  else (p, [])

/-- Modelled from the spec (§4.2 steps 3 and 4): the engine adapter's
end-of-stream notification.  An occupied `next` slot is promoted to
`current` and playback restarts gaplessly without passing through idle;
with no next media the pipeline returns to idle and the engine graph is
torn down. -/
def end_of_stream (p : pipeline) : pipeline × List engine_cmd :=
  match p.next with
  | some s =>
      ({ p with current := some s, next := none, cur_state := states.state_playing },
       [engine_cmd.build_and_start s.med])
  | none =>
      ({ p with current := none, cur_state := states.state_idle }, [engine_cmd.teardown])

/-- Modelled from the spec: the destructor (`~pipeline` is only declared in
`pipeline.hpp`, documented as "Cancels any current transitions and ends
playback immediately"; its implementation is absent from the sources).  It
behaves like a stop whose pending transitions are driven to completion
before the object goes away: the pair returned is the final observable
state of the core at destruction together with all commands sent to the
engine on the way down. -/
def destroy (p : pipeline) : pipeline × List engine_cmd :=
  let r1 := stop p
  let r2 := transition_finished r1.1
  let r3 := transition_finished r2.1
  (r3.1, r1.2 ++ r2.2 ++ r3.2)

/-- The `is_transitioning` observer in state-passing form: it is declared
`const` in `pipeline.hpp`, so it returns its value together with the
untouched pipeline state. -/
def is_transitioning_obs (p : pipeline) : Bool × pipeline :=
  (is_transitional p.cur_state, p)

/-- The `get_current_state` observer in state-passing form (`const` in
`pipeline.hpp`). -/
def get_current_state_obs (p : pipeline) : states × pipeline :=
  (p.cur_state, p)

/-- The `get_current_position` observer in state-passing form (`const` in
`pipeline.hpp`). -/
def get_current_position_obs (p : pipeline) (u : position_units) : Int × pipeline :=
  (get_current_position p u, p)

/-- The `get_duration` observer in state-passing form (`const` in
`pipeline.hpp`). -/
def get_duration_obs (p : pipeline) (u : position_units) : Int × pipeline :=
  (get_duration p u, p)

/-- The `get_volume` observer in state-passing form (`const` in
`pipeline.hpp`). -/
def get_volume_obs (p : pipeline) : ℚ × pipeline :=
  (get_volume p, p)

/-- The `is_muted` observer in state-passing form (`const` in
`pipeline.hpp`). -/
def is_muted_obs (p : pipeline) : Bool × pipeline :=
  (is_muted p, p)

/-- Applies a list of seek requests in order. -/
def apply_seeks (p : pipeline) : List (Int × position_units) → pipeline
  | [] => p
  | s :: rest => apply_seeks (set_current_position p s.1 s.2).1 rest

/-- The last element of a list of seek requests, with a default for the
empty list. -/
def last_seek : List (Int × position_units) → Option (Int × position_units) →
    Option (Int × position_units)
  | [], d => d
  | s :: rest, _ => last_seek rest (some s)

/-- Recognises the seek commands among those sent to the engine. -/
def is_seek_cmd : engine_cmd → Bool
  | engine_cmd.seek_to _ _ => true
  | _ => false

/-- A concrete valid media handle used by the witnesses. -/
def media_a : media := ⟨"file:///a.ogg", []⟩

/-- A second concrete valid media handle used by the witnesses. -/
def media_b : media := ⟨"file:///b.ogg", []⟩

/-- A third concrete valid media handle used by the witnesses. -/
def media_c : media := ⟨"file:///c.ogg", []⟩

/-- A concrete idle pipeline used by the witnesses. -/
def idle_pipeline : pipeline :=
  { cur_state := states.state_idle, resume := states.state_idle
    current := none, next := none, postponed := postponed_queue.empty
    seekable := true, pos_ns := none, pos_bytes := none
    dur_ns := none, dur_bytes := none
    volume_support := none, mute_support := none }

/-- A concrete playing pipeline (current slot occupied) used by the
witnesses. -/
def playing_pipeline : pipeline :=
  { cur_state := states.state_playing, resume := states.state_playing
    current := some ⟨1, media_a⟩, next := none, postponed := postponed_queue.empty
    seekable := true, pos_ns := some 5, pos_bytes := none
    dur_ns := some 100, dur_bytes := none
    volume_support := none, mute_support := none }

/-- A concrete buffering pipeline (resuming to playing) used by the
witnesses. -/
def buffering_pipeline : pipeline :=
  { cur_state := states.state_buffering, resume := states.state_playing
    current := some ⟨1, media_a⟩, next := none, postponed := postponed_queue.empty
    seekable := true, pos_ns := some 5, pos_bytes := none
    dur_ns := some 100, dur_bytes := none
    volume_support := none, mute_support := none }

/-- C1: a `play_media(token, media, play_now)` call arriving while the
pipeline is not transitional makes `(token, media)` the current slot and
discards any next slot exactly when `play_now` is true, or the current slot
is unoccupied, or the token matches the current slot's token; in every
other case the current slot, the state and the engine are untouched (no
interruption) and the pair only becomes the next slot. -/
theorem play_media_interrupt_condition (p : pipeline) (tok : Nat) (m : media)
    (play_now : Bool) (htr : is_transitional p.cur_state = false)
    (hv : m.is_valid = true) :
    ((play_now = true ∨ p.current = none ∨ slot_token_matches p.current tok = true) →
      (play_media p tok m play_now).2.1.current = some ⟨tok, m⟩ ∧
      (play_media p tok m play_now).2.1.next = none) ∧
    (¬ (play_now = true ∨ p.current = none ∨ slot_token_matches p.current tok = true) →
      (play_media p tok m play_now).2.1.current = p.current ∧
      (play_media p tok m play_now).2.1.cur_state = p.cur_state ∧
      (play_media p tok m play_now).2.1.next = some ⟨tok, m⟩ ∧
      (play_media p tok m play_now).2.2 = []) := by
  constructor <;> intro h <;>
    simp [play_media, play_media_impl, schedule, hv, htr, h]

/-- Witness for C1 at a concrete playing pipeline and a `play_now` call. -/
theorem play_media_interrupt_condition_witness :
    (play_media playing_pipeline 7 media_b true).2.1.current = some ⟨7, media_b⟩ ∧
    (play_media playing_pipeline 7 media_b true).2.1.next = none :=
  (play_media_interrupt_condition playing_pipeline 7 media_b true (by decide)
    (by decide)).1 (Or.inl rfl)

/-- C5: `play_media` returns true exactly when the media handle is
structurally valid, whatever the pipeline state — in particular a request
postponed because the pipeline is transitional still returns true. -/
theorem play_media_returns_validity (p : pipeline) (tok : Nat) (m : media)
    (play_now : Bool) :
    (play_media p tok m play_now).1 = m.is_valid := by
  cases hv : m.is_valid
  · simp [play_media, play_media_impl, hv]
  · simp [play_media, play_media_impl, hv]
    split <;> simp

/-- C6: `set_paused true` while the pipeline is already paused changes
nothing at all (state, slots and postponed queue included) and sends no
engine command; symmetrically `set_paused false` while playing is
ignored. -/
theorem set_paused_already_there_noop (p : pipeline) :
    (p.cur_state = states.state_paused → set_paused p true = (p, [])) ∧
    (p.cur_state = states.state_playing → set_paused p false = (p, [])) := by
  constructor <;> intro h <;> simp [set_paused, h, is_transitional]

/-- Witness for C6: unpausing a concrete playing pipeline is ignored. -/
theorem set_paused_already_there_noop_witness :
    set_paused playing_pipeline false = (playing_pipeline, []) :=
  (set_paused_already_there_noop playing_pipeline).2 rfl

/-- C7: `get_current_position` and `get_duration` return the sentinel `-1`
whenever the value cannot be determined in the requested unit (no current
media, or the unit unsupported), and the exact engine-reported value — never
a stale or default one — when it can; `get_volume` returns `1` and
`is_muted` returns `false` whenever volume/mute is unsupported. -/
theorem getters_sentinel_values (p : pipeline) (u : position_units) :
    (position_of p u = none → get_current_position p u = -1) ∧
    (p.current = none → get_current_position p u = -1) ∧
    (∀ s v, p.current = some s → position_of p u = some v →
      get_current_position p u = v) ∧
    (duration_of p u = none → get_duration p u = -1) ∧
    (p.current = none → get_duration p u = -1) ∧
    (∀ s v, p.current = some s → duration_of p u = some v →
      get_duration p u = v) ∧
    (p.volume_support = none → get_volume p = 1) ∧
    (p.mute_support = none → is_muted p = false) := by
  refine ⟨?_, ?_, ?_, ?_, ?_, ?_, ?_, ?_⟩
  · intro h
    cases hc : p.current <;> simp [get_current_position, h, hc]
  · intro h
    simp [get_current_position, h]
  · intro s v hs hv
    simp [get_current_position, hs, hv]
  · intro h
    cases hc : p.current <;> simp [get_duration, h, hc]
  · intro h
    simp [get_duration, h]
  · intro s v hs hv
    simp [get_duration, hs, hv]
  · intro h
    simp [get_volume, h]
  · intro h
    simp [is_muted, h]

/-- Witness for C7 at concrete pipelines: sentinel values while idle and
unsupported, and the exact engine-reported position while playing. -/
theorem getters_sentinel_values_witness :
    get_current_position idle_pipeline position_units.position_unit_nanoseconds = -1 ∧
    get_volume idle_pipeline = 1 ∧
    is_muted idle_pipeline = false ∧
    get_current_position playing_pipeline position_units.position_unit_nanoseconds = 5 :=
  ⟨(getters_sentinel_values idle_pipeline position_units.position_unit_nanoseconds).2.1 rfl,
   (getters_sentinel_values idle_pipeline position_units.position_unit_nanoseconds).2.2.2.2.2.2.1 rfl,
   (getters_sentinel_values idle_pipeline position_units.position_unit_nanoseconds).2.2.2.2.2.2.2 rfl,
   (getters_sentinel_values playing_pipeline position_units.position_unit_nanoseconds).2.2.1
     ⟨1, media_a⟩ 5 rfl rfl⟩

/-- C8: the two public `play_media` overloads (const-reference and
rvalue-reference media) both delegate to the one protected
`play_media_impl`, so on equal media values they return the same result and
leave the pipeline in the same state. -/
theorem play_media_overloads_equivalent (p : pipeline) (tok : Nat) (m : media)
    (play_now : Bool) :
    play_media p tok m play_now = play_media_move p tok m play_now := rfl

/-- C9: every observer of the public interface (`is_transitioning`,
`get_current_state`, `get_current_position`, `get_duration`, `get_volume`,
`is_muted`) is a pure read: it returns a value and leaves the pipeline
state exactly unchanged. -/
theorem observers_are_pure (p : pipeline) (u : position_units) :
    (is_transitioning_obs p).2 = p ∧
    (get_current_state_obs p).2 = p ∧
    (get_current_position_obs p u).2 = p ∧
    (get_duration_obs p u).2 = p ∧
    (get_volume_obs p).2 = p ∧
    (is_muted_obs p).2 = p :=
  ⟨rfl, rfl, rfl, rfl, rfl, rfl⟩

/-- C2: for `play_media(T1, X, true)`, a finished start transition, then
`play_media(T2, Y, false)` and `play_media(T2, Z, false)` with `T1 ≠ T2`
(starting from a non-transitional pipeline with nothing postponed): as long
as Y has not started, Z replaces Y in the next slot while X stays current;
if instead end-of-stream promoted Y to current before the third call, Z
immediately replaces Y as current (the matching token forces the
interrupt) instead of queueing as next. -/
theorem play_media_token_replacement (p pa pb pc : pipeline)
    (T1 T2 : Nat) (X Y Z : media)
    (htr : is_transitional p.cur_state = false)
    (hq : p.postponed = postponed_queue.empty)
    (hT : T1 ≠ T2)
    (hX : X.is_valid = true) (hY : Y.is_valid = true) (hZ : Z.is_valid = true)
    (ha : pa = (play_media p T1 X true).2.1)
    (hb : pb = (transition_finished pa).1)
    (hc : pc = (play_media pb T2 Y false).2.1) :
    ((play_media pc T2 Z false).2.1.current = some ⟨T1, X⟩ ∧
     (play_media pc T2 Z false).2.1.next = some ⟨T2, Z⟩) ∧
    ((end_of_stream pc).1.current = some ⟨T2, Y⟩ ∧
     (play_media (end_of_stream pc).1 T2 Z false).2.1.current = some ⟨T2, Z⟩ ∧
     (play_media (end_of_stream pc).1 T2 Z false).2.1.next = none) := by
  subst ha hb hc
  have h1 : (play_media p T1 X true).2.1 =
      { p with current := some ⟨T1, X⟩, next := none
               cur_state := states.state_starting, resume := states.state_playing } := by
    simp [play_media, play_media_impl, schedule, hX, htr]
  rw [h1]
  have h2 : (transition_finished
      { p with current := some ⟨T1, X⟩, next := none
               cur_state := states.state_starting, resume := states.state_playing }).1 =
      { p with current := some ⟨T1, X⟩, next := none
               cur_state := states.state_playing, resume := states.state_playing
               postponed := postponed_queue.empty } := by
    simp [transition_finished, is_transitional, flush, run_play, run_pause,
      run_seek, run_mute, run_volume, hq, postponed_queue.empty]
  rw [h2]
  have h3 : (play_media
      { p with current := some ⟨T1, X⟩, next := none
               cur_state := states.state_playing, resume := states.state_playing
               postponed := postponed_queue.empty } T2 Y false).2.1 =
      { p with current := some ⟨T1, X⟩, next := some ⟨T2, Y⟩
               cur_state := states.state_playing, resume := states.state_playing
               postponed := postponed_queue.empty } := by
    simp [play_media, play_media_impl, schedule, is_transitional,
      slot_token_matches, hY, hT]
  rw [h3]
  simp [play_media, play_media_impl, schedule, end_of_stream,
    slot_token_matches, is_transitional, hZ, hT]

/-- Witness for C2 at concrete tokens and media, starting from the idle
pipeline. -/
theorem play_media_token_replacement_witness :
    (play_media
      (play_media
        (transition_finished (play_media idle_pipeline 1 media_a true).2.1).1
        2 media_b false).2.1
      2 media_c false).2.1.current = some ⟨1, media_a⟩ :=
  ((play_media_token_replacement idle_pipeline
      (play_media idle_pipeline 1 media_a true).2.1
      (transition_finished (play_media idle_pipeline 1 media_a true).2.1).1
      (play_media
        (transition_finished (play_media idle_pipeline 1 media_a true).2.1).1
        2 media_b false).2.1
      1 2 media_a media_b media_c (by decide) (by decide) (by decide)
      (by decide) (by decide) (by decide) rfl rfl rfl).1).1

/-- C4: from any pipeline state (the idle state satisfying the reachable
idle invariant of empty slots and queue), `stop()` is a no-op when already
idle, clears every postponed action other than the stop itself, and — after
the at most two engine transition-finished notifications it takes — always
leaves the pipeline idle with both scheduler slots empty and an empty
postponed queue. -/
theorem stop_always_reaches_idle (p : pipeline)
    (hidle : p.cur_state = states.state_idle →
      p.current = none ∧ p.next = none ∧ p.postponed = postponed_queue.empty) :
    (p.cur_state = states.state_idle → stop p = (p, [])) ∧
    ((stop p).1.postponed.play = none ∧ (stop p).1.postponed.pause = none ∧
     (stop p).1.postponed.seek = none ∧ (stop p).1.postponed.mute = none ∧
     (stop p).1.postponed.volume = none) ∧
    ((transition_finished (transition_finished (stop p).1).1).1.cur_state =
       states.state_idle ∧
     (transition_finished (transition_finished (stop p).1).1).1.current = none ∧
     (transition_finished (transition_finished (stop p).1).1).1.next = none ∧
     (transition_finished (transition_finished (stop p).1).1).1.postponed =
       postponed_queue.empty) := by
  obtain ⟨cs, rs, cur, nxt, pq, sk, a1, a2, a3, a4, vs, ms⟩ := p
  cases cs <;> cases rs <;>
    simp_all [stop, transition_finished, flush, run_play, run_pause, run_seek,
      run_mute, run_volume, is_transitional, postponed_queue.empty]

/-- Witness for C4: stop is a no-op on the concrete idle pipeline, and from
the concrete buffering pipeline two transition notifications after the stop
land in idle with empty slots. -/
theorem stop_always_reaches_idle_witness :
    stop idle_pipeline = (idle_pipeline, []) ∧
    (transition_finished
      (transition_finished (stop buffering_pipeline).1).1).1.cur_state =
      states.state_idle ∧
    (transition_finished
      (transition_finished (stop buffering_pipeline).1).1).1.current = none :=
  ⟨(stop_always_reaches_idle idle_pipeline (by decide)).1 rfl,
   (stop_always_reaches_idle buffering_pipeline (by decide)).2.2.1,
   (stop_always_reaches_idle buffering_pipeline (by decide)).2.2.2.1⟩

/-- C10: destroying the pipeline from any state (the idle state satisfying
the reachable idle invariant), including mid-transition, cancels the
in-flight transition and ends playback: afterwards no postponed action is
pending and no media is current or scheduled as next. -/
theorem destroy_cancels_and_clears (p : pipeline)
    (hidle : p.cur_state = states.state_idle →
      p.current = none ∧ p.next = none ∧ p.postponed = postponed_queue.empty) :
    (destroy p).1.postponed = postponed_queue.empty ∧
    (destroy p).1.current = none ∧
    (destroy p).1.next = none := by
  obtain ⟨cs, rs, cur, nxt, pq, sk, a1, a2, a3, a4, vs, ms⟩ := p
  cases cs <;> cases rs <;>
    simp_all [destroy, stop, transition_finished, flush, run_play, run_pause,
      run_seek, run_mute, run_volume, is_transitional, postponed_queue.empty]

/-- Witness for C10 at the concrete buffering (mid-transition) pipeline. -/
theorem destroy_cancels_and_clears_witness :
    (destroy buffering_pipeline).1.postponed = postponed_queue.empty ∧
    (destroy buffering_pipeline).1.current = none :=
  ⟨(destroy_cancels_and_clears buffering_pipeline (by decide)).1,
   (destroy_cancels_and_clears buffering_pipeline (by decide)).2.1⟩

/-- `last_seek` computes the last element of the request list, falling back
to the default only for the empty list. -/
theorem last_seek_getLast (ps : List (Int × position_units)) :
    ∀ d, last_seek ps d = (ps.getLast?).elim d some := by
  induction ps with
  | nil => intro d; simp [last_seek]
  | cons s rest ih =>
    intro d
    cases rest with
    | nil => simp [last_seek]
    | cons t ts =>
      rw [show last_seek (s :: t :: ts) d = last_seek (t :: ts) (some s) from rfl,
        ih (some s), List.getLast?_cons_cons]
      cases hl : (t :: ts).getLast? with
      | none => simp at hl
      | some x => simp

/-- Seeks issued while the pipeline transitions towards playing or paused
only overwrite the single postponed-seek entry, leaving everything else
untouched. -/
theorem apply_seeks_postponed (ps : List (Int × position_units)) :
    ∀ p : pipeline, is_transitional p.cur_state = true →
      (p.resume = states.state_playing ∨ p.resume = states.state_paused) →
      apply_seeks p ps =
        { p with postponed :=
            { p.postponed with seek := last_seek ps p.postponed.seek } } := by
  induction ps with
  | nil => intro p h1 h2; rfl
  | cons s rest ih =>
    intro p h1 h2
    have hset : (set_current_position p s.1 s.2).1 =
        { p with postponed := { p.postponed with seek := some s } } := by
      simp [set_current_position, h1, h2]
    rw [show apply_seeks p (s :: rest) =
          apply_seeks (set_current_position p s.1 s.2).1 rest from rfl,
      hset, ih { p with postponed := { p.postponed with seek := some s } } h1 h2]
    rfl

/-- Flushing a queue that holds only a postponed seek, at a
playing-or-paused resting point of seekable media, sends the engine exactly
that one seek command and leaves no postponed seek behind. -/
theorem flush_only_seek (q : pipeline) (lp : Int × position_units)
    (hcs : q.cur_state = states.state_playing ∨ q.cur_state = states.state_paused)
    (hsk : q.seekable = true)
    (hstop : q.postponed.stop = false)
    (hplay : q.postponed.play = none)
    (hpause : q.postponed.pause = none)
    (hseek : q.postponed.seek = some lp) :
    (flush q).2.filter is_seek_cmd = [engine_cmd.seek_to lp.1 lp.2] ∧
    (flush q).1.postponed.seek = none := by
  rcases hcs with h | h <;>
    cases hmu : q.postponed.mute <;> cases hms : q.mute_support <;>
    cases hvo : q.postponed.volume <;> cases hvs : q.volume_support <;>
      simp [flush, run_play, run_pause, run_seek, run_mute, run_volume,
        set_current_position, set_muted, set_volume, is_seek_cmd,
        is_transitional, hstop, hplay, hpause, hseek, hsk, h, hmu, hms,
        hvo, hvs]

/-- C3: while the pipeline is transitional (towards playing or paused, as
while buffering), any sequence of `set_current_position` calls keeps at
most one postponed seek, each call replacing the previous one; when the
transition finishes, the postponed seek executes exactly once — one seek
command to the engine, carrying the position of the last call — and the
postponed-seek entry is gone. -/
theorem postponed_seek_last_wins (p : pipeline)
    (ps : List (Int × position_units)) (lp : Int × position_units)
    (htr : is_transitional p.cur_state = true)
    (hres : p.resume = states.state_playing ∨ p.resume = states.state_paused)
    (hsk : p.seekable = true)
    (hstop : p.postponed.stop = false)
    (hplay : p.postponed.play = none)
    (hpause : p.postponed.pause = none)
    (hlast : ps.getLast? = some lp) :
    (apply_seeks p ps).postponed.seek = some lp ∧
    (transition_finished (apply_seeks p ps)).2.filter is_seek_cmd =
      [engine_cmd.seek_to lp.1 lp.2] ∧
    (transition_finished (apply_seeks p ps)).1.postponed.seek = none := by
  have hq : apply_seeks p ps =
      { p with postponed := { p.postponed with seek := some lp } } := by
    rw [apply_seeks_postponed ps p htr hres, last_seek_getLast ps, hlast]
    rfl
  rw [hq]
  have ht : transition_finished
      { p with postponed := { p.postponed with seek := some lp } } =
      flush { p with cur_state := p.resume
                     postponed := { p.postponed with seek := some lp } } := by
    simp [transition_finished, htr]
  refine ⟨rfl, ?_, ?_⟩ <;> rw [ht]
  · exact (flush_only_seek
      { p with cur_state := p.resume
               postponed := { p.postponed with seek := some lp } }
      lp hres hsk hstop hplay hpause rfl).1
  · exact (flush_only_seek
      { p with cur_state := p.resume
               postponed := { p.postponed with seek := some lp } }
      lp hres hsk hstop hplay hpause rfl).2

/-- Witness for C3: two seeks during the concrete buffering pipeline, the
second replacing the first, flushed as one engine seek at the second
position. -/
theorem postponed_seek_last_wins_witness :
    (apply_seeks buffering_pipeline
      [(10, position_units.position_unit_nanoseconds),
       (20, position_units.position_unit_bytes)]).postponed.seek =
      some (20, position_units.position_unit_bytes) :=
  (postponed_seek_last_wins buffering_pipeline
    [(10, position_units.position_unit_nanoseconds),
     (20, position_units.position_unit_bytes)]
    (20, position_units.position_unit_bytes)
    (by decide) (Or.inl rfl) rfl rfl rfl rfl (by decide)).1

end nxplay
